import Mathlib

/-!
Shallow embedding of `src/braid.ts` (repository fildon/braid).

The TypeScript module represents a braid as a record of two numeric
dimensions and a `Set` of crossing objects.  Every update path first
clones the braid, copying each crossing into a fresh object, so the
JavaScript `Set` (which compares object references) never deduplicates
structurally equal crossings and preserves insertion order.  A `List` of
structural `Crossing` values is therefore an exact model of the set of
references, with `new Set([...s, x])` modelled as `s ++ [x]` and
`[...s].filter p` as `List.filter p s`.

Numbers appearing in the code are used only as integers (indices and
dimensions, including negative indices which the code tests for), so
they are modelled as `Int`.
-/

/-- The two ways a pair of adjacent ropes can cross (`"S" | "Z"`). -/
inductive CrossingKind : Type
  | S : CrossingKind
  | Z : CrossingKind
deriving DecidableEq, Repr

/-- A crossing: a kind at a (rowIndex, colIndex) location. -/
structure Crossing : Type where
  kind : CrossingKind
  rowIndex : Int
  colIndex : Int
deriving DecidableEq, Repr

/-- A braid: dimensions plus the crossings collection. -/
structure Braid : Type where
  length : Int
  ropes : Int
  crossings : List Crossing
deriving DecidableEq, Repr

/-- The four range errors thrown by `handleCrossingRequest`, in source order:
negative y index, negative x index, y index too high, x index too high. -/
inductive RangeError : Type
  | negativeY : RangeError
  | negativeX : RangeError
  | yTooHigh : RangeError
  | xTooHigh : RangeError
deriving DecidableEq, Repr

/-- `createBraid`: a 10 by 10 braid with no crossings. -/
def createBraid : Braid :=
  { length := 10, ropes := 10, crossings := [] }

/-- `cloneBraid`: copy the braid, copying each crossing into a fresh value. -/
def cloneBraid (braid : Braid) : Braid :=
  { length := braid.length
    ropes := braid.ropes
    crossings := braid.crossings.map fun crossing =>
      { kind := crossing.kind, rowIndex := crossing.rowIndex, colIndex := crossing.colIndex } }

/-- `createCrossing`: add a crossing to (a clone of) an existing braid. -/
def createCrossing (crossing : Crossing) (braid : Braid) : Braid :=
  let newBraid := cloneBraid braid
  { newBraid with crossings := newBraid.crossings ++ [crossing] }

/-- `removeCrossing`: as written in the source, the filter KEEPS exactly the
crossings whose row and column equal the target location (the predicate is
`crossing.rowIndex === rowIndex && crossing.colIndex === colIndex` with no
negation), discarding every other crossing. -/
def removeCrossing (rowIndex colIndex : Int) (braid : Braid) : Braid :=
  let newBraid := cloneBraid braid
  { newBraid with crossings := newBraid.crossings.filter fun crossing =>
      crossing.rowIndex == rowIndex && crossing.colIndex == colIndex }

/-- `updateCrossing`: remove-then-create at the crossing's location. -/
def updateCrossing (crossing : Crossing) (braid : Braid) : Braid :=
  createCrossing crossing (removeCrossing crossing.rowIndex crossing.colIndex braid)

/-- `handleCrossingRequest braid (colIndex, rowIndex)`.  The TS signature
destructures the location tuple as `[colIndex, rowIndex]`.  Throwing is
modelled as `Except.error`; the `null` soft rejection as `Except.ok none`. -/
def handleCrossingRequest (braid : Braid) (location : Int × Int) :
    Except RangeError (Option Braid) :=
  let colIndex := location.1
  let rowIndex := location.2
  if rowIndex < 0 then Except.error RangeError.negativeY
  else if colIndex < 0 then Except.error RangeError.negativeX
  else if rowIndex > braid.length - 1 then Except.error RangeError.yTooHigh
  else if colIndex > braid.ropes - 2 then Except.error RangeError.xTooHigh
  else
    let crossingsInRow := braid.crossings.filter
      (fun crossing => crossing.rowIndex == rowIndex)
    if crossingsInRow.any (fun crossing => (crossing.colIndex - colIndex).natAbs == 1) then
      Except.ok none
    else
      match crossingsInRow.find? (fun crossing => crossing.colIndex == colIndex) with
      | none =>
          Except.ok (some (createCrossing
            { kind := CrossingKind.S, rowIndex := rowIndex, colIndex := colIndex } braid))
      | some crossingAtLocation =>
          if crossingAtLocation.kind = CrossingKind.S then
            Except.ok (some (updateCrossing
              { kind := CrossingKind.Z, rowIndex := rowIndex, colIndex := colIndex } braid))
          else
            Except.ok (some (removeCrossing rowIndex colIndex braid))

/-- Cloning is the structural identity: each crossing is rebuilt field by
field, which is definitional eta for the structure. -/
theorem cloneBraid_eq (braid : Braid) : cloneBraid braid = braid := by
  cases braid with
  | mk l r cs =>
      show Braid.mk l r (cs.map fun c => c) = Braid.mk l r cs
      rw [List.map_id']

/-- C9: createBraid returns a braid with length 10, ropes 10 and an empty
crossing collection. -/
theorem C9_createBraid_default :
    createBraid.length = 10 ∧ createBraid.ropes = 10 ∧ createBraid.crossings = [] :=
  ⟨rfl, rfl, rfl⟩

/-- At most one crossing per (rowIndex, colIndex) cell: no two list entries
share both coordinates. -/
def atMostOnePerCell (crossings : List Crossing) : Prop :=
  crossings.Pairwise fun a b => a.rowIndex ≠ b.rowIndex ∨ a.colIndex ≠ b.colIndex

/-- `createCrossing` appends the new crossing to the unchanged collection. -/
theorem createCrossing_eq (crossing : Crossing) (braid : Braid) :
    createCrossing crossing braid =
      Braid.mk braid.length braid.ropes (braid.crossings ++ [crossing]) := by
  unfold createCrossing
  rw [cloneBraid_eq]

/-- If the location is in bounds, no range error is raised. -/
theorem handleCrossingRequest_inbounds_ok (braid : Braid) (colIndex rowIndex : Int)
    (h1 : ¬ rowIndex < 0) (h2 : ¬ colIndex < 0)
    (h3 : ¬ rowIndex > braid.length - 1) (h4 : ¬ colIndex > braid.ropes - 2) :
    ∃ o, handleCrossingRequest braid (colIndex, rowIndex) = Except.ok o := by
  unfold handleCrossingRequest
  simp only [if_neg h1, if_neg h2, if_neg h3, if_neg h4]
  split
  · exact ⟨none, rfl⟩
  · split
    · exact ⟨_, rfl⟩
    · split
      · exact ⟨_, rfl⟩
      · exact ⟨_, rfl⟩

/-- C1: refuted by the code. Starting from the empty default braid at the
valid, conflict-free location (col 3, row 2), three successive requests do
NOT return to the original crossing set: because the remove filter keeps
(rather than discards) the crossing at the target cell, the third request
leaves the crossings S, Z, Z at (2,3) instead of the empty set. -/
theorem C1_triple_request_not_identity :
    handleCrossingRequest createBraid (3, 2) =
      Except.ok (some (Braid.mk 10 10 [Crossing.mk CrossingKind.S 2 3]))
    ∧ handleCrossingRequest (Braid.mk 10 10 [Crossing.mk CrossingKind.S 2 3]) (3, 2) =
      Except.ok (some (Braid.mk 10 10
        [Crossing.mk CrossingKind.S 2 3, Crossing.mk CrossingKind.Z 2 3]))
    ∧ handleCrossingRequest (Braid.mk 10 10
        [Crossing.mk CrossingKind.S 2 3, Crossing.mk CrossingKind.Z 2 3]) (3, 2) =
      Except.ok (some (Braid.mk 10 10
        [Crossing.mk CrossingKind.S 2 3, Crossing.mk CrossingKind.Z 2 3,
         Crossing.mk CrossingKind.Z 2 3]))
    ∧ [Crossing.mk CrossingKind.S 2 3, Crossing.mk CrossingKind.Z 2 3,
       Crossing.mk CrossingKind.Z 2 3] ≠ createBraid.crossings :=
  ⟨rfl, rfl, rfl, by decide⟩

/-- C2: refuted by the code. With a Z crossing at (row 0, col 0) and an S
crossing at (row 1, col 0), a request at (col 0, row 0) reaches the Z branch,
but `removeCrossing` keeps exactly the crossing at the target cell and drops
every other crossing: the Z at (0,0) survives and the S at (1,0) is lost,
the opposite of the claimed removal. -/
theorem C2_remove_keeps_target_drops_rest :
    handleCrossingRequest (Braid.mk 10 10
        [Crossing.mk CrossingKind.Z 0 0, Crossing.mk CrossingKind.S 1 0]) (0, 0) =
      Except.ok (some (Braid.mk 10 10 [Crossing.mk CrossingKind.Z 0 0]))
    ∧ removeCrossing 0 0 (Braid.mk 10 10
        [Crossing.mk CrossingKind.Z 0 0, Crossing.mk CrossingKind.S 1 0]) =
      Braid.mk 10 10 [Crossing.mk CrossingKind.Z 0 0]
    ∧ Crossing.mk CrossingKind.Z 0 0 ∈ [Crossing.mk CrossingKind.Z 0 0]
    ∧ Crossing.mk CrossingKind.S 1 0 ∉ [Crossing.mk CrossingKind.Z 0 0] :=
  ⟨rfl, rfl, by decide, by decide⟩

/-- C3: refuted by the code. With an S crossing at (row 0, col 0), a request
at (col 0, row 0) reaches the S branch, but `updateCrossing`'s inner remove
keeps the S instead of discarding it, so the result holds both the old S and
the new Z at that cell rather than exactly one Z crossing. -/
theorem C3_update_leaves_two_crossings :
    handleCrossingRequest (Braid.mk 10 10 [Crossing.mk CrossingKind.S 0 0]) (0, 0) =
      Except.ok (some (Braid.mk 10 10
        [Crossing.mk CrossingKind.S 0 0, Crossing.mk CrossingKind.Z 0 0]))
    ∧ List.countP
        (fun crossing => crossing.rowIndex == (0 : Int) && crossing.colIndex == (0 : Int))
        [Crossing.mk CrossingKind.S 0 0, Crossing.mk CrossingKind.Z 0 0] = 2 :=
  ⟨rfl, by decide⟩

/-- C4: refuted by the code. The input braid with a single S crossing at
(0,0) satisfies the at-most-one-crossing-per-cell invariant, yet the
non-null result of a request at (col 0, row 0) holds two crossings at the
same cell, violating the invariant. -/
theorem C4_invariant_not_preserved :
    atMostOnePerCell [Crossing.mk CrossingKind.S 0 0]
    ∧ handleCrossingRequest (Braid.mk 10 10 [Crossing.mk CrossingKind.S 0 0]) (0, 0) =
      Except.ok (some (Braid.mk 10 10
        [Crossing.mk CrossingKind.S 0 0, Crossing.mk CrossingKind.Z 0 0]))
    ∧ ¬ atMostOnePerCell
        [Crossing.mk CrossingKind.S 0 0, Crossing.mk CrossingKind.Z 0 0] :=
  ⟨by simp [atMostOnePerCell], rfl, by simp [atMostOnePerCell]⟩

/-- C8: whenever handleCrossingRequest returns a braid, its length and ropes
fields equal those of the input braid. -/
theorem C8_dimensions_preserved (braid newBraid : Braid) (location : Int × Int)
    (h : handleCrossingRequest braid location = Except.ok (some newBraid)) :
    newBraid.length = braid.length ∧ newBraid.ropes = braid.ropes := by
  simp only [handleCrossingRequest] at h
  split at h
  · exact absurd h (by simp)
  · split at h
    · exact absurd h (by simp)
    · split at h
      · exact absurd h (by simp)
      · split at h
        · exact absurd h (by simp)
        · split at h
          · exact absurd h (by simp)
          · split at h
            · simp only [Except.ok.injEq, Option.some.injEq] at h
              subst h
              exact ⟨rfl, rfl⟩
            · split at h
              · simp only [Except.ok.injEq, Option.some.injEq] at h
                subst h
                exact ⟨rfl, rfl⟩
              · simp only [Except.ok.injEq, Option.some.injEq] at h
                subst h
                exact ⟨rfl, rfl⟩

/-- C8 witness: a concrete successful request preserves the dimensions. -/
theorem C8_dimensions_preserved_witness :
    (Braid.mk 10 10 [Crossing.mk CrossingKind.S 0 0]).length = createBraid.length
    ∧ (Braid.mk 10 10 [Crossing.mk CrossingKind.S 0 0]).ropes = createBraid.ropes :=
  C8_dimensions_preserved createBraid
    (Braid.mk 10 10 [Crossing.mk CrossingKind.S 0 0]) (0, 0) rfl

/-- C10: handleCrossingRequest is deterministic; braids equal field by field
(dimensions and the crossing collection in the same order) at equal
locations produce equal outcomes. -/
theorem C10_deterministic (b1 b2 : Braid) (loc1 loc2 : Int × Int)
    (hlen : b1.length = b2.length) (hropes : b1.ropes = b2.ropes)
    (hcross : b1.crossings = b2.crossings) (hloc : loc1 = loc2) :
    handleCrossingRequest b1 loc1 = handleCrossingRequest b2 loc2 := by
  obtain ⟨l1, r1, c1⟩ := b1
  obtain ⟨l2, r2, c2⟩ := b2
  obtain rfl := hloc
  simp only at hlen hropes hcross
  subst hlen
  subst hropes
  subst hcross
  rfl

/-- C10 witness: the theorem applied to two structurally equal braids. -/
theorem C10_deterministic_witness :
    handleCrossingRequest createBraid (0, 0) =
      handleCrossingRequest (Braid.mk 10 10 []) (0, 0) :=
  C10_deterministic createBraid (Braid.mk 10 10 []) (0, 0) (0, 0) rfl rfl rfl rfl

/-- C6: an error is raised exactly when the location is out of bounds, with
the four checks evaluated in source order (negative row, negative column,
row too high, column too high), independent of existing crossings. -/
theorem C6_range_error_order (braid : Braid) (colIndex rowIndex : Int) :
    (handleCrossingRequest braid (colIndex, rowIndex) = Except.error RangeError.negativeY
      ↔ rowIndex < 0)
    ∧ (handleCrossingRequest braid (colIndex, rowIndex) = Except.error RangeError.negativeX
      ↔ ¬ rowIndex < 0 ∧ colIndex < 0)
    ∧ (handleCrossingRequest braid (colIndex, rowIndex) = Except.error RangeError.yTooHigh
      ↔ ¬ rowIndex < 0 ∧ ¬ colIndex < 0 ∧ rowIndex > braid.length - 1)
    ∧ (handleCrossingRequest braid (colIndex, rowIndex) = Except.error RangeError.xTooHigh
      ↔ ¬ rowIndex < 0 ∧ ¬ colIndex < 0 ∧ ¬ rowIndex > braid.length - 1
          ∧ colIndex > braid.ropes - 2)
    ∧ ((∃ e, handleCrossingRequest braid (colIndex, rowIndex) = Except.error e)
      ↔ rowIndex < 0 ∨ colIndex < 0 ∨ rowIndex > braid.length - 1
          ∨ colIndex > braid.ropes - 2) := by
  by_cases h1 : rowIndex < 0
  · have he : handleCrossingRequest braid (colIndex, rowIndex) =
        Except.error RangeError.negativeY := by
      unfold handleCrossingRequest
      simp [h1]
    simp [he, h1]
  · by_cases h2 : colIndex < 0
    · have he : handleCrossingRequest braid (colIndex, rowIndex) =
          Except.error RangeError.negativeX := by
        unfold handleCrossingRequest
        simp [h1, h2]
      simp [he, h1, h2]
    · by_cases h3 : rowIndex > braid.length - 1
      · have he : handleCrossingRequest braid (colIndex, rowIndex) =
            Except.error RangeError.yTooHigh := by
          unfold handleCrossingRequest
          simp [h1, h2, h3]
        simp [he, h1, h2, h3]
      · by_cases h4 : colIndex > braid.ropes - 2
        · have he : handleCrossingRequest braid (colIndex, rowIndex) =
              Except.error RangeError.xTooHigh := by
            unfold handleCrossingRequest
            simp [h1, h2, h3, h4]
          simp [he, h1, h2, h3, h4]
        · obtain ⟨o, ho⟩ :=
            handleCrossingRequest_inbounds_ok braid colIndex rowIndex h1 h2 h3 h4
          simp [ho, h1, h2, h3, h4]

/-- C5: for an in-bounds location, the request returns the null rejection
exactly when some existing crossing in the SAME row sits at a column whose
index differs from the requested one by exactly 1; crossings in other rows
never trigger the rejection. -/
theorem C5_adjacency_rejection (braid : Braid) (colIndex rowIndex : Int)
    (h1 : ¬ rowIndex < 0) (h2 : ¬ colIndex < 0)
    (h3 : ¬ rowIndex > braid.length - 1) (h4 : ¬ colIndex > braid.ropes - 2) :
    handleCrossingRequest braid (colIndex, rowIndex) = Except.ok none
      ↔ ∃ crossing ∈ braid.crossings,
          crossing.rowIndex = rowIndex ∧ (crossing.colIndex - colIndex).natAbs = 1 := by
  unfold handleCrossingRequest
  simp only [if_neg h1, if_neg h2, if_neg h3, if_neg h4]
  by_cases hadj : (braid.crossings.filter fun crossing => crossing.rowIndex == rowIndex).any
      (fun crossing => (crossing.colIndex - colIndex).natAbs == 1) = true
  · rw [if_pos hadj]
    simp only [List.any_eq_true, List.mem_filter, beq_iff_eq] at hadj
    obtain ⟨c, ⟨hc, hrow⟩, habs⟩ := hadj
    exact iff_of_true rfl ⟨c, hc, hrow, habs⟩
  · rw [if_neg hadj]
    have hnone : ¬ ∃ crossing ∈ braid.crossings,
        crossing.rowIndex = rowIndex ∧ (crossing.colIndex - colIndex).natAbs = 1 := by
      intro ⟨c, hc, hrow, habs⟩
      exact hadj (by
        simp only [List.any_eq_true, List.mem_filter, beq_iff_eq]
        exact ⟨c, ⟨hc, hrow⟩, habs⟩)
    constructor
    · intro hmatch
      exfalso
      split at hmatch
      · simp at hmatch
      · split at hmatch
        · simp at hmatch
        · simp at hmatch
    · intro hx
      exact absurd hx hnone

/-- C5 witness: an S crossing at (row 0, col 1) makes the in-bounds request
at (col 0, row 0) return the null rejection. -/
theorem C5_adjacency_rejection_witness :
    handleCrossingRequest (Braid.mk 10 10 [Crossing.mk CrossingKind.S 0 1]) (0, 0) =
      Except.ok none :=
  (C5_adjacency_rejection (Braid.mk 10 10 [Crossing.mk CrossingKind.S 0 1]) 0 0
      (by decide) (by decide) (by decide) (by decide)).mpr
    ⟨Crossing.mk CrossingKind.S 0 1, by decide, rfl, rfl⟩

/-- C7: for an in-bounds location with no crossing at the requested cell and
no crossing at an adjacent column of the same row, the request succeeds and
appends exactly one new S crossing at the requested location, keeping the
dimensions and every existing crossing unchanged. -/
theorem C7_empty_cell_adds_S (braid : Braid) (colIndex rowIndex : Int)
    (h1 : ¬ rowIndex < 0) (h2 : ¬ colIndex < 0)
    (h3 : ¬ rowIndex > braid.length - 1) (h4 : ¬ colIndex > braid.ropes - 2)
    (hempty : ∀ crossing ∈ braid.crossings,
        crossing.rowIndex = rowIndex → crossing.colIndex ≠ colIndex)
    (hnoadj : ∀ crossing ∈ braid.crossings,
        crossing.rowIndex = rowIndex → (crossing.colIndex - colIndex).natAbs ≠ 1) :
    handleCrossingRequest braid (colIndex, rowIndex) =
      Except.ok (some (Braid.mk braid.length braid.ropes
        (braid.crossings ++ [Crossing.mk CrossingKind.S rowIndex colIndex]))) := by
  have hadj : ¬ (braid.crossings.filter fun crossing => crossing.rowIndex == rowIndex).any
      (fun crossing => (crossing.colIndex - colIndex).natAbs == 1) = true := by
    simp only [List.any_eq_true, List.mem_filter, beq_iff_eq]
    intro ⟨c, ⟨hc, hrow⟩, habs⟩
    exact hnoadj c hc hrow habs
  have hfind : (braid.crossings.filter fun crossing => crossing.rowIndex == rowIndex).find?
      (fun crossing => crossing.colIndex == colIndex) = none := by
    rw [List.find?_eq_none]
    intro c hc
    simp only [List.mem_filter, beq_iff_eq] at hc
    simp only [beq_iff_eq]
    exact hempty c hc.1 hc.2
  unfold handleCrossingRequest
  simp only [if_neg h1, if_neg h2, if_neg h3, if_neg h4, if_neg hadj, hfind]
  rw [createCrossing_eq]

/-- C7 witness: on the default braid, the request at (col 3, row 2) adds a
single S crossing at row 2, column 3. -/
theorem C7_empty_cell_adds_S_witness :
    handleCrossingRequest createBraid (3, 2) =
      Except.ok (some (Braid.mk 10 10 [Crossing.mk CrossingKind.S 2 3])) :=
  C7_empty_cell_adds_S createBraid 3 2 (by decide) (by decide) (by decide) (by decide)
    (by intro c hc _; simp [createBraid] at hc)
    (by intro c hc _; simp [createBraid] at hc)
